import Mathlib

/-!
Shallow embedding of the core logic of `src/script.js` (class
`SpaceHabitatDesigner`): the auto-layout engine, the geometry-metrics
computation, the clear operation, and the layout save/load path.

Machine reals are modelled as `ℝ`; `Math.random()` is modelled as an
explicit stream `u : ℕ → ℝ` of draws (one per placement index), with the
range condition `0 ≤ u i < 1` carried as a hypothesis where a theorem
needs it.  JavaScript `undefined` (a field absent from a parsed JSON
document, or a session field overwritten with such a value) is modelled
as `Option`.
-/

namespace SpaceHabitatDesigner

/-- The fixed canonical list of system identifiers, in source order
(`getEnabledSystems` in `src/script.js`, lines 263-266; the same list is
repeated in `loadLayoutData`, lines 456-459). -/
def systemIds : List String :=
  ["life-support", "power", "waste", "thermal", "communications",
   "medical", "sleep", "exercise", "food", "stowage"]

/-- A 3D position (`THREE.Vector3` as used by the placement code). -/
structure Vec3 where
  x : ℝ
  y : ℝ
  z : ℝ

/-- One placed system marker: the kind string and the position handed to
`createSystem` (`src/script.js`, line 248). -/
structure PlacedSystem where
  kind : String
  position : Vec3

/-- `getEnabledSystems` (`src/script.js`, lines 262-269): filter the fixed
`systemIds` list by the checkbox state.  The DOM checkbox state is
modelled as a predicate `checked : String → Bool`. -/
def getEnabledSystems (checked : String → Bool) : List String :=
  systemIds.filter checked

/-- The body of the `enabledSystems.forEach((systemType, index) => ...)`
loop of `autoLayout` (`src/script.js`, lines 242-251), unrolled as a
recursion carrying the running index:  element `k` at running index
`idx` is placed at angle `idx * angleStep`, with
`x = cos(angle)·radius`, `z = sin(angle)·radius` and
`y = (u idx − 0.5)·height·0.5` (`Math.random()` is the draw `u idx`). -/
noncomputable def layoutFrom (systems : List String) (idx : ℕ)
    (radius height angleStep : ℝ) (u : ℕ → ℝ) : List PlacedSystem :=
  match systems with
  | [] => []
  | systemType :: rest =>
    let angle : ℝ := idx * angleStep
    { kind := systemType
      position :=
        { x := Real.cos angle * radius
          y := (u idx - 0.5) * height * 0.5
          z := Real.sin angle * radius } }
      :: layoutFrom rest (idx + 1) radius height angleStep u

/-- The placement computation of `autoLayout` (`src/script.js`, lines
235-251): empty input produces no placements; otherwise
`radius = currentRadius * 0.8`, `height = currentHeight * 0.8`,
`angleStep = 2π / enabledSystems.length`, and each element is placed by
the loop body `layoutFrom` starting at index 0. -/
noncomputable def layoutPositions (enabledSystems : List String)
    (currentRadius currentHeight : ℝ) (u : ℕ → ℝ) : List PlacedSystem :=
  if enabledSystems.length = 0 then []
  else
    let radius := currentRadius * 0.8
    let height := currentHeight * 0.8
    let angleStep := (2 * Real.pi) / enabledSystems.length
    layoutFrom enabledSystems 0 radius height angleStep u

/-- The mutable session state touched by `autoLayout` / `clearSystems` /
`updateSystemsCount`: current shape string, dimensions, checkbox state,
the `this.systems` array of placed markers, and the displayed systems
count (`systems-count` DOM text). -/
structure DesignState where
  currentShape : String
  currentRadius : ℝ
  currentHeight : ℝ
  checked : String → Bool
  systems : List PlacedSystem
  systemsCountDisplay : ℕ

/-- `updateSystemsCount` (`src/script.js`, lines 306-308): the displayed
count becomes `this.systems.length`. -/
def updateSystemsCount (s : DesignState) : DesignState :=
  { s with systemsCountDisplay := s.systems.length }

/-- `clearSystems` (`src/script.js`, lines 256-260): empty the stored
placement collection, then refresh the displayed count. -/
def clearSystems (s : DesignState) : DesignState :=
  updateSystemsCount { s with systems := [] }

/-- `autoLayout` (`src/script.js`, lines 232-254) as a state transformer:
it FIRST invokes `clearSystems`, then reads the enabled systems; if none
are enabled it returns (with the collection already cleared); otherwise
it pushes one placement per enabled system (computed by
`layoutPositions`) and refreshes the displayed count. -/
noncomputable def autoLayout (s : DesignState) (u : ℕ → ℝ) : DesignState :=
  let s₁ := clearSystems s
  let enabledSystems := getEnabledSystems s₁.checked
  if enabledSystems.length = 0 then s₁
  else
    updateSystemsCount
      { s₁ with systems :=
          layoutPositions enabledSystems s₁.currentRadius s₁.currentHeight u }

/-! ### Geometry metrics (`updateHabitatInfo`) -/

/-- The four shape strings the `switch (this.currentShape)` statements of
`createHabitat` and `updateHabitatInfo` cover. -/
inductive HabitatShape
  | cylinder
  | sphere
  | cube
  | torus
  deriving DecidableEq

/-- The volume and surface area computed by `updateHabitatInfo`
(`src/script.js`, lines 271-296), transcribed case by case. -/
noncomputable def computeMetrics (shape : HabitatShape)
    (currentRadius currentHeight : ℝ) : ℝ × ℝ :=
  match shape with
  | .cylinder =>
      (Real.pi * currentRadius * currentRadius * currentHeight,
       2 * Real.pi * currentRadius * currentHeight +
         2 * Real.pi * currentRadius * currentRadius)
  | .sphere =>
      ((4 / 3) * Real.pi * currentRadius * currentRadius * currentRadius,
       4 * Real.pi * currentRadius * currentRadius)
  | .cube =>
      (currentRadius * 2 * currentHeight * currentRadius * 2,
       2 * (currentRadius * 2 * currentHeight +
            currentRadius * 2 * currentRadius * 2 +
            currentHeight * currentRadius * 2))
  | .torus =>
      let R := currentRadius
      let r := currentRadius * 0.3
      (2 * Real.pi * Real.pi * R * r * r,
       4 * Real.pi * Real.pi * R * r)

/-- JavaScript `Math.round` on a finite number: `⌊x + 0.5⌋` (halves round
toward positive infinity). -/
noncomputable def jsRound (x : ℝ) : ℤ := ⌊x + 0.5⌋

/-- The three numbers `updateHabitatInfo` (`src/script.js`, lines 271-304)
writes to the display: `Math.round(volume)`, `Math.round(surfaceArea)`
and `crewCapacity = Math.floor(volume / 20)`. -/
structure HabitatInfo where
  volumeDisplay : ℤ
  surfaceDisplay : ℤ
  crewDisplay : ℤ

/-- `updateHabitatInfo` (`src/script.js`, lines 271-304): compute volume
and surface area by shape, derive `crewCapacity = Math.floor(volume / 20)`,
and display the rounded volume and surface area alongside it. -/
noncomputable def updateHabitatInfo (shape : HabitatShape)
    (currentRadius currentHeight : ℝ) : HabitatInfo :=
  let m := computeMetrics shape currentRadius currentHeight
  let crewCapacity : ℤ := ⌊m.1 / 20⌋
  { volumeDisplay := jsRound m.1
    surfaceDisplay := jsRound m.2
    crewDisplay := crewCapacity }

/-! ### Layout save/load (`saveLayout` / `loadLayout` / `loadLayoutData`)

A parsed JSON layout document is modelled field by field with `Option`:
`none` is a field absent from the document (reading it in JavaScript
yields `undefined`).  `JSON.stringify` omits `undefined`-valued fields
and `JSON.parse` restores exactly the fields present, so the
stringify/parse round trip of the save path is the identity on this
representation. -/

/-- A layout document as `JSON.parse` delivers it to `loadLayoutData`:
each of the five fields of the object built in `saveLayout`
(`src/script.js`, lines 402-408), present or absent. -/
structure ParsedLayout where
  shape : Option String
  radius : Option ℝ
  height : Option ℝ
  systems : Option (List String)
  timestamp : Option String

/-- The session state the save/load path reads and writes: the current
shape/dimension fields, the checkbox state, and the stored placement
collection `this.systems`.  Fields are `Option`-valued because
`loadLayoutData` assigns document fields as-is, so a missing field
overwrites them with `undefined`. -/
structure SessionState where
  currentShape : Option String
  currentRadius : Option ℝ
  currentHeight : Option ℝ
  checked : String → Bool
  systems : List PlacedSystem

/-- `saveLayout` (`src/script.js`, lines 401-417): serialize the current
shape, dimensions, enabled systems (`getEnabledSystems()`) and a
timestamp.  All five fields are present in the produced document. -/
def saveLayout (s : SessionState) (now : String) : ParsedLayout :=
  { shape := s.currentShape
    radius := s.currentRadius
    height := s.currentHeight
    systems := some (getEnabledSystems s.checked)
    timestamp := some now }

/-- `loadLayoutData` (`src/script.js`, lines 443-468) on a parsed
document, together with the try/catch of `loadLayout` that wraps it.
First component: whether an exception escaped `loadLayoutData` (it is
caught by the caller and surfaced as an `alert`).  The steps, in source
order: shape, radius and height are assigned as-is (no validation); then
`layout.systems.includes(id)` is evaluated per known id — when the
document has no `systems` field this throws a `TypeError` at once, with
shape/radius/height already overwritten and the checkboxes and
placements untouched; otherwise each known id's checkbox becomes
`layout.systems.includes(id)` and the final `this.autoLayout()` call
replaces the placement collection.  When radius or height is absent that
final call computes NaN coordinates, which `ℝ` cannot represent; the
model reads an absent dimension as 0 there, and no theorem below
examines coordinates from that corner. -/
noncomputable def loadLayoutData (layout : ParsedLayout) (s : SessionState)
    (u : ℕ → ℝ) : Bool × SessionState :=
  let s₁ : SessionState :=
    { s with
      currentShape := layout.shape
      currentRadius := layout.radius
      currentHeight := layout.height }
  match layout.systems with
  | none => (true, s₁)
  | some sys =>
      let checked : String → Bool := fun id =>
        if systemIds.contains id then sys.contains id else s.checked id
      (false,
       { s₁ with
         checked := checked
         systems := layoutPositions (getEnabledSystems checked)
           (layout.radius.getD 0) (layout.height.getD 0) u })

/-- What `loadLayout` (`src/script.js`, lines 419-441) feeds to its
try/catch: either text `JSON.parse` rejects, or a parsed document. -/
inductive LoadInput
  | notJson
  | parsed (layout : ParsedLayout)

/-- The `reader.onload` handler of `loadLayout` (`src/script.js`, lines
428-435): unparseable text makes `JSON.parse` throw before any state is
touched; a parsed document is handed to `loadLayoutData`.  Either
exception is caught by the same catch and surfaced as a non-fatal
`alert` (the first component). -/
noncomputable def loadLayout (input : LoadInput) (s : SessionState)
    (u : ℕ → ℝ) : Bool × SessionState :=
  match input with
  | .notJson => (true, s)
  | .parsed layout => loadLayoutData layout s u

/-! ### Lemmas about the placement loop -/

theorem layoutFrom_length (systems : List String) (idx : ℕ)
    (radius height angleStep : ℝ) (u : ℕ → ℝ) :
    (layoutFrom systems idx radius height angleStep u).length = systems.length := by
  induction systems generalizing idx with
  | nil => rfl
  | cons k rest ih => simp [layoutFrom, ih]

theorem layoutFrom_get? (systems : List String) (idx : ℕ)
    (radius height angleStep : ℝ) (u : ℕ → ℝ)
    (i : ℕ) (hi : i < systems.length) :
    (layoutFrom systems idx radius height angleStep u).get? i =
      some { kind := systems.get ⟨i, hi⟩
             position :=
               { x := Real.cos (((idx + i : ℕ) : ℝ) * angleStep) * radius
                 y := (u (idx + i) - 0.5) * height * 0.5
                 z := Real.sin (((idx + i : ℕ) : ℝ) * angleStep) * radius } } := by
  induction systems generalizing idx i with
  | nil => simp at hi
  | cons k rest ih =>
    cases i with
    | zero => simp [layoutFrom]
    | succ j =>
      have hj : j < rest.length := by simpa using hi
      have h2 := ih (idx + 1) j hj
      have heq : idx + 1 + j = idx + (j + 1) := by omega
      rw [heq] at h2
      exact h2

theorem layoutFrom_mem_y (systems : List String) (idx : ℕ)
    (radius height angleStep : ℝ) (u : ℕ → ℝ)
    (p : PlacedSystem) (hp : p ∈ layoutFrom systems idx radius height angleStep u) :
    ∃ j : ℕ, p.position.y = (u j - 0.5) * height * 0.5 := by
  induction systems generalizing idx with
  | nil => simp [layoutFrom] at hp
  | cons k rest ih =>
    simp only [layoutFrom, List.mem_cons] at hp
    rcases hp with h | h
    · exact ⟨idx, by rw [h]⟩
    · exact ih (idx + 1) h

theorem layoutFrom_map_kind (systems : List String) (idx : ℕ)
    (radius height angleStep : ℝ) (u : ℕ → ℝ) :
    (layoutFrom systems idx radius height angleStep u).map PlacedSystem.kind
      = systems := by
  induction systems generalizing idx with
  | nil => rfl
  | cons k rest ih => simp [layoutFrom, ih]

/-- **C1.** On a non-empty list of N enabled systems, auto-layout emits
exactly N placements in input order; the placement at index i has
`x = cos(i·2π/N)·(0.8·radius)`, `z = sin(i·2π/N)·(0.8·radius)` and
`y = (U − 0.5)·(0.8·height)·0.5` for some draw U from [0,1), and its
radial distance in the x-z plane is exactly `0.8·radius`. -/
theorem C1_layout_positions (enabled : List String) (r h : ℝ) (u : ℕ → ℝ)
    (hne : enabled ≠ []) (hr : 0 ≤ r) (hu : ∀ i, 0 ≤ u i ∧ u i < 1) :
    (layoutPositions enabled r h u).length = enabled.length ∧
    ∀ i : ℕ, ∀ hi : i < enabled.length, ∃ p : PlacedSystem,
      (layoutPositions enabled r h u).get? i = some p ∧
      p.kind = enabled.get ⟨i, hi⟩ ∧
      p.position.x = Real.cos (i * (2 * Real.pi / enabled.length)) * (0.8 * r) ∧
      p.position.z = Real.sin (i * (2 * Real.pi / enabled.length)) * (0.8 * r) ∧
      (∃ U : ℝ, 0 ≤ U ∧ U < 1 ∧ p.position.y = (U - 0.5) * (0.8 * h) * 0.5) ∧
      Real.sqrt (p.position.x ^ 2 + p.position.z ^ 2) = 0.8 * r := by
  have hlen : ¬ enabled.length = 0 := by simpa using hne
  have hunfold : layoutPositions enabled r h u =
      layoutFrom enabled 0 (r * 0.8) (h * 0.8) (2 * Real.pi / enabled.length) u := by
    simp [layoutPositions, hlen]
  constructor
  · rw [hunfold, layoutFrom_length]
  · intro i hi
    have hget := layoutFrom_get? enabled 0 (r * 0.8) (h * 0.8)
      (2 * Real.pi / enabled.length) u i hi
    refine ⟨{ kind := enabled.get ⟨i, hi⟩
              position :=
                { x := Real.cos (((0 + i : ℕ) : ℝ) * (2 * Real.pi / enabled.length)) * (r * 0.8)
                  y := (u (0 + i) - 0.5) * (h * 0.8) * 0.5
                  z := Real.sin (((0 + i : ℕ) : ℝ) * (2 * Real.pi / enabled.length)) * (r * 0.8) } },
      ?_, rfl, ?_, ?_, ?_, ?_⟩
    · rw [hunfold]; exact hget
    · show Real.cos (((0 + i : ℕ) : ℝ) * (2 * Real.pi / enabled.length)) * (r * 0.8) = _
      simp only [Nat.zero_add]
      ring
    · show Real.sin (((0 + i : ℕ) : ℝ) * (2 * Real.pi / enabled.length)) * (r * 0.8) = _
      simp only [Nat.zero_add]
      ring
    · exact ⟨u (0 + i), (hu _).1, (hu _).2, by ring⟩
    · show Real.sqrt ((Real.cos (((0 + i : ℕ) : ℝ) * (2 * Real.pi / enabled.length)) * (r * 0.8)) ^ 2
        + (Real.sin (((0 + i : ℕ) : ℝ) * (2 * Real.pi / enabled.length)) * (r * 0.8)) ^ 2) = 0.8 * r
      have hsc := Real.sin_sq_add_cos_sq (((0 + i : ℕ) : ℝ) * (2 * Real.pi / enabled.length))
      have hxz : (Real.cos (((0 + i : ℕ) : ℝ) * (2 * Real.pi / enabled.length)) * (r * 0.8)) ^ 2
          + (Real.sin (((0 + i : ℕ) : ℝ) * (2 * Real.pi / enabled.length)) * (r * 0.8)) ^ 2
          = (0.8 * r) ^ 2 := by nlinarith [hsc]
      rw [hxz]
      exact Real.sqrt_sq (by linarith)

/-- **C1 witness**: the theorem applied to the single system `"power"`,
radius 1, height 1 and the constant draw 0. -/
theorem C1_witness :
    (["power"] : List String) ≠ [] ∧ (0 : ℝ) ≤ 1 ∧
    (∀ i : ℕ, (0 : ℝ) ≤ (fun _ : ℕ => (0 : ℝ)) i ∧ (fun _ : ℕ => (0 : ℝ)) i < 1) ∧
    ((layoutPositions ["power"] 1 1 (fun _ : ℕ => (0 : ℝ))).length
        = (["power"] : List String).length ∧
      ∀ i : ℕ, ∀ hi : i < (["power"] : List String).length, ∃ p : PlacedSystem,
        (layoutPositions ["power"] 1 1 (fun _ : ℕ => (0 : ℝ))).get? i = some p ∧
        p.kind = (["power"] : List String).get ⟨i, hi⟩ ∧
        p.position.x =
          Real.cos (i * (2 * Real.pi / (["power"] : List String).length)) * (0.8 * 1) ∧
        p.position.z =
          Real.sin (i * (2 * Real.pi / (["power"] : List String).length)) * (0.8 * 1) ∧
        (∃ U : ℝ, 0 ≤ U ∧ U < 1 ∧ p.position.y = (U - 0.5) * (0.8 * 1) * 0.5) ∧
        Real.sqrt (p.position.x ^ 2 + p.position.z ^ 2) = 0.8 * 1) :=
  ⟨by decide, by norm_num, fun i => by norm_num,
    C1_layout_positions ["power"] 1 1 (fun _ => 0) (by decide) (by norm_num)
      (fun i => by norm_num)⟩

/-- **C10.** Every placement emitted with height h > 0 has
`−0.2·h ≤ y < 0.2·h`, hence lies strictly within the habitat's vertical
extent (−h/2, h/2). -/
theorem C10_jitter_bounds (enabled : List String) (r h : ℝ) (u : ℕ → ℝ)
    (hh : 0 < h) (hu : ∀ i, 0 ≤ u i ∧ u i < 1) :
    ∀ p ∈ layoutPositions enabled r h u,
      -(0.2 * h) ≤ p.position.y ∧ p.position.y < 0.2 * h ∧
      -(h / 2) < p.position.y ∧ p.position.y < h / 2 := by
  intro p hp
  have hy : ∃ j : ℕ, p.position.y = (u j - 0.5) * (h * 0.8) * 0.5 := by
    by_cases hlen : enabled.length = 0
    · simp [layoutPositions, hlen] at hp
    · exact layoutFrom_mem_y _ _ _ _ _ _ p (by simpa [layoutPositions, hlen] using hp)
  obtain ⟨j, hyj⟩ := hy
  obtain ⟨h0, h1⟩ := hu j
  have hp1 : 0 ≤ h * u j := mul_nonneg hh.le h0
  have hp2 : 0 < h * (1 - u j) := mul_pos hh (by linarith)
  refine ⟨by rw [hyj]; nlinarith, by rw [hyj]; nlinarith,
    by rw [hyj]; nlinarith, by rw [hyj]; nlinarith⟩

/-- **C10 witness**: the theorem applied to the single system `"power"`,
radius 1, height 1 and the constant draw 0. -/
theorem C10_witness :
    (0 : ℝ) < 1 ∧
    (∀ i : ℕ, (0 : ℝ) ≤ (fun _ : ℕ => (0 : ℝ)) i ∧ (fun _ : ℕ => (0 : ℝ)) i < 1) ∧
    ∀ p ∈ layoutPositions ["power"] 1 1 (fun _ : ℕ => (0 : ℝ)),
      -(0.2 * 1) ≤ p.position.y ∧ p.position.y < 0.2 * 1 ∧
      -((1 : ℝ) / 2) < p.position.y ∧ p.position.y < (1 : ℝ) / 2 :=
  ⟨by norm_num, fun i => by norm_num,
    C10_jitter_bounds ["power"] 1 1 (fun _ => 0) (by norm_num) (fun i => by norm_num)⟩

/-- **C2.** The metrics formulas per shape: cylinder volume `π·r²·h` and
surface `2πrh + 2πr²`; sphere volume `(4/3)·π·r³` and surface `4πr²`
(height unused); cube volume `(2r)·h·(2r)` and surface
`2·[(2r)·h + (2r)·(2r) + h·(2r)]`; torus with minor radius `0.3·r`:
volume `2·π²·r·(0.3r)²` and surface `4·π²·r·(0.3r)`. -/
theorem C2_metrics_formulas (r h : ℝ) (hr : 0 < r) (hh : 0 < h) :
    (computeMetrics .cylinder r h).1 = Real.pi * r ^ 2 * h ∧
    (computeMetrics .cylinder r h).2 = 2 * Real.pi * r * h + 2 * Real.pi * r ^ 2 ∧
    (computeMetrics .sphere r h).1 = 4 / 3 * Real.pi * r ^ 3 ∧
    (computeMetrics .sphere r h).2 = 4 * Real.pi * r ^ 2 ∧
    (∀ h₂ : ℝ, computeMetrics .sphere r h₂ = computeMetrics .sphere r h) ∧
    (computeMetrics .cube r h).1 = 2 * r * h * (2 * r) ∧
    (computeMetrics .cube r h).2 = 2 * (2 * r * h + 2 * r * (2 * r) + h * (2 * r)) ∧
    (computeMetrics .torus r h).1 = 2 * Real.pi ^ 2 * r * (0.3 * r) ^ 2 ∧
    (computeMetrics .torus r h).2 = 4 * Real.pi ^ 2 * r * (0.3 * r) := by
  refine ⟨?_, ?_, ?_, ?_, fun h₂ => ?_, ?_, ?_, ?_, ?_⟩ <;>
    simp only [computeMetrics] <;> ring

/-- **C2 witness**: the theorem applied at radius 1, height 1. -/
theorem C2_witness :
    (0 : ℝ) < 1 ∧ (0 : ℝ) < 1 ∧
    ((computeMetrics .cylinder 1 1).1 = Real.pi * 1 ^ 2 * 1 ∧
      (computeMetrics .cylinder 1 1).2 = 2 * Real.pi * 1 * 1 + 2 * Real.pi * 1 ^ 2 ∧
      (computeMetrics .sphere 1 1).1 = 4 / 3 * Real.pi * 1 ^ 3 ∧
      (computeMetrics .sphere 1 1).2 = 4 * Real.pi * 1 ^ 2 ∧
      (∀ h₂ : ℝ, computeMetrics .sphere 1 h₂ = computeMetrics .sphere 1 1) ∧
      (computeMetrics .cube 1 1).1 = 2 * 1 * 1 * (2 * 1) ∧
      (computeMetrics .cube 1 1).2 = 2 * (2 * 1 * 1 + 2 * 1 * (2 * 1) + 1 * (2 * 1)) ∧
      (computeMetrics .torus 1 1).1 = 2 * Real.pi ^ 2 * 1 * (0.3 * 1) ^ 2 ∧
      (computeMetrics .torus 1 1).2 = 4 * Real.pi ^ 2 * 1 * (0.3 * 1)) :=
  ⟨by norm_num, by norm_num, C2_metrics_formulas 1 1 (by norm_num) (by norm_num)⟩

/-- **C3.** Crew capacity is `⌊volume / 20⌋` for every shape, and the
concrete cylinder scenario radius 10, height 15 displays volume 4712,
surface area 1571 and crew capacity 235. -/
theorem C3_crew_capacity (shape : HabitatShape) (r h : ℝ)
    (hr : 0 < r) (hh : 0 < h) :
    (updateHabitatInfo shape r h).crewDisplay
        = ⌊(computeMetrics shape r h).1 / 20⌋ ∧
    (updateHabitatInfo .cylinder 10 15).crewDisplay = 235 ∧
    (updateHabitatInfo .cylinder 10 15).volumeDisplay = 4712 ∧
    (updateHabitatInfo .cylinder 10 15).surfaceDisplay = 1571 := by
  have hπl := Real.pi_gt_3141592
  have hπu := Real.pi_lt_3141593
  refine ⟨rfl, ?_, ?_, ?_⟩
  · show (⌊Real.pi * 10 * 10 * 15 / 20⌋ : ℤ) = 235
    rw [Int.floor_eq_iff]
    constructor
    · push_cast
      linarith
    · push_cast
      linarith
  · show (⌊Real.pi * 10 * 10 * 15 + 0.5⌋ : ℤ) = 4712
    rw [Int.floor_eq_iff]
    constructor
    · push_cast
      linarith
    · push_cast
      linarith
  · show (⌊2 * Real.pi * 10 * 15 + 2 * Real.pi * 10 * 10 + 0.5⌋ : ℤ) = 1571
    rw [Int.floor_eq_iff]
    constructor
    · push_cast
      linarith
    · push_cast
      linarith

/-- **C3 witness**: the theorem applied to the cylinder at radius 10,
height 15. -/
theorem C3_witness :
    (0 : ℝ) < 10 ∧ (0 : ℝ) < 15 ∧
    ((updateHabitatInfo .cylinder 10 15).crewDisplay
        = ⌊(computeMetrics .cylinder 10 15).1 / 20⌋ ∧
      (updateHabitatInfo .cylinder 10 15).crewDisplay = 235 ∧
      (updateHabitatInfo .cylinder 10 15).volumeDisplay = 4712 ∧
      (updateHabitatInfo .cylinder 10 15).surfaceDisplay = 1571) :=
  ⟨by norm_num, by norm_num,
    C3_crew_capacity .cylinder 10 15 (by norm_num) (by norm_num)⟩

/-- **C7.** Placement order is the canonical `systemIds` ordering
restricted to the enabled systems; the checkbox state being a set, the
order in which identifiers were enabled cannot influence it (enabling
from two click lists with the same members yields the same layout
order); and a single enabled system is placed at angle 0, i.e. at
position `(0.8·radius, y, 0)`. -/
theorem C7_canonical_order (checked : String → Bool) (r h : ℝ) (u : ℕ → ℝ) :
    (layoutPositions (getEnabledSystems checked) r h u).map PlacedSystem.kind
        = systemIds.filter checked ∧
    (∀ clicks₁ clicks₂ : List String, (∀ x, x ∈ clicks₁ ↔ x ∈ clicks₂) →
      getEnabledSystems (fun id => decide (id ∈ clicks₁))
        = getEnabledSystems (fun id => decide (id ∈ clicks₂))) ∧
    (∀ k : String, getEnabledSystems checked = [k] →
      ∃ y : ℝ, layoutPositions (getEnabledSystems checked) r h u
        = [{ kind := k, position := { x := 0.8 * r, y := y, z := 0 } }]) := by
  refine ⟨?_, ?_, ?_⟩
  · by_cases hlen : (getEnabledSystems checked).length = 0
    · have hnil : getEnabledSystems checked = [] := List.length_eq_zero.mp hlen
      rw [show systemIds.filter checked = getEnabledSystems checked from rfl, hnil]
      simp [layoutPositions]
    · rw [show systemIds.filter checked = getEnabledSystems checked from rfl]
      simp only [layoutPositions, hlen, if_false]
      exact layoutFrom_map_kind _ _ _ _ _ _
  · intro clicks₁ clicks₂ hmem
    unfold getEnabledSystems
    refine List.filter_congr ?_
    intro a _
    exact decide_eq_decide.mpr (hmem a)
  · intro k hk
    rw [hk]
    refine ⟨(u 0 - 0.5) * (h * 0.8) * 0.5, ?_⟩
    simp only [layoutPositions, layoutFrom, List.length_cons, List.length_nil]
    norm_num
    ring

/-- **C8.** With no enabled systems, auto-layout yields an empty
placement sequence and cannot fail: the placement computation on the
empty list is `[]`, and the stateful operation (a total function) leaves
an empty stored collection and a zero displayed count. -/
theorem C8_empty_layout_no_throw (r h : ℝ) (u : ℕ → ℝ) (s : DesignState)
    (hempty : (getEnabledSystems s.checked).length = 0) :
    layoutPositions [] r h u = [] ∧
    (autoLayout s u).systems = [] ∧
    (autoLayout s u).systemsCountDisplay = 0 := by
  refine ⟨by simp [layoutPositions], ?_, ?_⟩ <;>
    simp [autoLayout, clearSystems, updateSystemsCount, hempty]

/-- **C8 witness**: the theorem applied to a session with no checked
system. -/
theorem C8_witness :
    (getEnabledSystems
        (DesignState.mk "cylinder" 10 15 (fun _ => false) [] 0).checked).length = 0 ∧
    (layoutPositions [] 1 1 (fun _ : ℕ => (0 : ℝ)) = [] ∧
      (autoLayout (DesignState.mk "cylinder" 10 15 (fun _ => false) [] 0)
          (fun _ : ℕ => (0 : ℝ))).systems = [] ∧
      (autoLayout (DesignState.mk "cylinder" 10 15 (fun _ => false) [] 0)
          (fun _ : ℕ => (0 : ℝ))).systemsCountDisplay = 0) :=
  ⟨rfl, C8_empty_layout_no_throw 1 1 (fun _ => 0)
    (DesignState.mk "cylinder" 10 15 (fun _ => false) [] 0) rfl⟩

/-- **C4.** Round trip: loading the document saved from a session with
shape s, radius r, height h reproduces shape, radius, height and the
enabled-system set exactly (timestamp excluded from the comparison),
whatever prior session state it is loaded over. -/
theorem C4_save_load_roundtrip (shape : String) (r h : ℝ)
    (checked : String → Bool) (placements : List PlacedSystem)
    (now : String) (s₀ : SessionState) (u : ℕ → ℝ) :
    (loadLayout (.parsed (saveLayout
        ⟨some shape, some r, some h, checked, placements⟩ now)) s₀ u).1 = false ∧
    (loadLayout (.parsed (saveLayout
        ⟨some shape, some r, some h, checked, placements⟩ now)) s₀ u).2.currentShape
      = some shape ∧
    (loadLayout (.parsed (saveLayout
        ⟨some shape, some r, some h, checked, placements⟩ now)) s₀ u).2.currentRadius
      = some r ∧
    (loadLayout (.parsed (saveLayout
        ⟨some shape, some r, some h, checked, placements⟩ now)) s₀ u).2.currentHeight
      = some h ∧
    ∀ id : String,
      id ∈ getEnabledSystems (loadLayout (.parsed (saveLayout
          ⟨some shape, some r, some h, checked, placements⟩ now)) s₀ u).2.checked
        ↔ id ∈ getEnabledSystems checked := by
  refine ⟨rfl, rfl, rfl, rfl, ?_⟩
  intro id
  constructor
  · intro hmem
    obtain ⟨hid, hch⟩ := List.mem_filter.mp hmem
    have hcont : systemIds.contains id = true := List.elem_iff.mpr hid
    change (if systemIds.contains id = true
        then (systemIds.filter checked).contains id
        else s₀.checked id) = true at hch
    rw [if_pos hcont] at hch
    exact List.elem_iff.mp hch
  · intro hmem
    have hid : id ∈ systemIds := (List.mem_filter.mp hmem).1
    have hcont : systemIds.contains id = true := List.elem_iff.mpr hid
    refine List.mem_filter.mpr ⟨hid, ?_⟩
    change (if systemIds.contains id = true
        then (systemIds.filter checked).contains id
        else s₀.checked id) = true
    rw [if_pos hcont]
    exact List.elem_iff.mpr hmem

/-- **C9.** A parseable document whose systems array holds unknown
identifiers loads without error, and the resulting enabled-system set is
exactly the intersection of the document's array with the 10 known
identifiers. -/
theorem C9_unknown_systems_ignored (layout : ParsedLayout)
    (sys : List String) (hsys : layout.systems = some sys)
    (s₀ : SessionState) (u : ℕ → ℝ) :
    (loadLayoutData layout s₀ u).1 = false ∧
    ∀ id : String,
      id ∈ getEnabledSystems (loadLayoutData layout s₀ u).2.checked
        ↔ id ∈ systemIds ∧ id ∈ sys := by
  obtain ⟨sh, ra, he, sy, ts⟩ := layout
  change sy = some sys at hsys
  subst hsys
  refine ⟨rfl, ?_⟩
  intro id
  constructor
  · intro hmem
    obtain ⟨hid, hch⟩ := List.mem_filter.mp hmem
    have hcont : systemIds.contains id = true := List.elem_iff.mpr hid
    change (if systemIds.contains id = true
        then sys.contains id
        else s₀.checked id) = true at hch
    rw [if_pos hcont] at hch
    exact ⟨hid, List.elem_iff.mp hch⟩
  · rintro ⟨hid, hmemsys⟩
    have hcont : systemIds.contains id = true := List.elem_iff.mpr hid
    refine List.mem_filter.mpr ⟨hid, ?_⟩
    change (if systemIds.contains id = true
        then sys.contains id
        else s₀.checked id) = true
    rw [if_pos hcont]
    exact List.elem_iff.mpr hmemsys

/-- **C9 witness**: loading a document whose systems array holds the
unknown identifier `"warp-drive"` alongside two known ones. -/
theorem C9_witness :
    (ParsedLayout.mk (some "sphere") (some 12) (some 5)
        (some ["power", "warp-drive", "medical"]) none).systems
      = some ["power", "warp-drive", "medical"] ∧
    ((loadLayoutData (ParsedLayout.mk (some "sphere") (some 12) (some 5)
          (some ["power", "warp-drive", "medical"]) none)
        (SessionState.mk none none none (fun _ => false) [])
        (fun _ : ℕ => (0 : ℝ))).1 = false ∧
      ∀ id : String,
        id ∈ getEnabledSystems (loadLayoutData
            (ParsedLayout.mk (some "sphere") (some 12) (some 5)
              (some ["power", "warp-drive", "medical"]) none)
            (SessionState.mk none none none (fun _ => false) [])
            (fun _ : ℕ => (0 : ℝ))).2.checked
          ↔ id ∈ systemIds ∧ id ∈ ["power", "warp-drive", "medical"]) :=
  ⟨rfl, C9_unknown_systems_ignored
    (ParsedLayout.mk (some "sphere") (some 12) (some 5)
      (some ["power", "warp-drive", "medical"]) none)
    ["power", "warp-drive", "medical"] rfl
    (SessionState.mk none none none (fun _ => false) []) (fun _ => 0)⟩

/-- The parsed form of the document text `{"shape": "cube"}`: valid
JSON, but missing the required radius, height and systems fields. -/
def missingFieldsDoc : ParsedLayout :=
  ⟨some "cube", none, none, none, none⟩

/-- A prior session: a cylinder of radius 10 and height 15, no system
checked, no placements. -/
noncomputable def priorSession : SessionState :=
  ⟨some "cylinder", some 10, some 15, fun _ => false, []⟩

/-- **C5 counterexample.** Loading the parseable document
`{"shape": "cube"}` (missing required fields) raises a caught error, but
the session state is NOT left unchanged by the failed operation: the
current shape has already been overwritten when the error fires. -/
theorem C5_counterexample :
    (loadLayout (.parsed missingFieldsDoc) priorSession (fun _ => 0)).1 = true ∧
    (loadLayout (.parsed missingFieldsDoc) priorSession (fun _ => 0)).2.currentShape
      ≠ priorSession.currentShape := by
  refine ⟨rfl, ?_⟩
  show (some "cube" : Option String) ≠ some "cylinder"
  decide

/-- **C5 (amended).** Text that is not valid structured data raises
`MalformedDocument`, surfaced as a non-fatal notification, and leaves
the session state entirely unchanged.  A parseable document missing the
systems field also raises a caught, non-fatally surfaced error, but only
the enabled systems and the placements survive it unchanged: shape,
radius and height have already been overwritten with the document's
values (absent ones included) when the error fires. -/
theorem C5_amended_error_handling (s : SessionState) (u : ℕ → ℝ)
    (layout : ParsedLayout) (hmissing : layout.systems = none) :
    loadLayout .notJson s u = (true, s) ∧
    (loadLayout (.parsed layout) s u).1 = true ∧
    (loadLayout (.parsed layout) s u).2.checked = s.checked ∧
    (loadLayout (.parsed layout) s u).2.systems = s.systems ∧
    (loadLayout (.parsed layout) s u).2.currentShape = layout.shape ∧
    (loadLayout (.parsed layout) s u).2.currentRadius = layout.radius ∧
    (loadLayout (.parsed layout) s u).2.currentHeight = layout.height := by
  obtain ⟨sh, ra, he, sy, ts⟩ := layout
  change sy = none at hmissing
  subst hmissing
  exact ⟨rfl, rfl, rfl, rfl, rfl, rfl, rfl⟩

/-- **C5 witness**: the amended theorem applied to the prior cylinder
session and the document `{"shape": "cube"}`. -/
theorem C5_amended_witness :
    missingFieldsDoc.systems = none ∧
    (loadLayout .notJson priorSession (fun _ : ℕ => (0 : ℝ))
        = (true, priorSession) ∧
      (loadLayout (.parsed missingFieldsDoc) priorSession
          (fun _ : ℕ => (0 : ℝ))).1 = true ∧
      (loadLayout (.parsed missingFieldsDoc) priorSession
          (fun _ : ℕ => (0 : ℝ))).2.checked = priorSession.checked ∧
      (loadLayout (.parsed missingFieldsDoc) priorSession
          (fun _ : ℕ => (0 : ℝ))).2.systems = priorSession.systems ∧
      (loadLayout (.parsed missingFieldsDoc) priorSession
          (fun _ : ℕ => (0 : ℝ))).2.currentShape = missingFieldsDoc.shape ∧
      (loadLayout (.parsed missingFieldsDoc) priorSession
          (fun _ : ℕ => (0 : ℝ))).2.currentRadius = missingFieldsDoc.radius ∧
      (loadLayout (.parsed missingFieldsDoc) priorSession
          (fun _ : ℕ => (0 : ℝ))).2.currentHeight = missingFieldsDoc.height) :=
  ⟨rfl, C5_amended_error_handling priorSession (fun _ => 0) missingFieldsDoc rfl⟩

/-- A session holding one previously stored placement, with no system
checked. -/
noncomputable def sessionWithPlacement : DesignState :=
  ⟨"cylinder", 10, 15, fun _ => false, [⟨"power", ⟨1, 2, 3⟩⟩], 1⟩

/-- **C6 counterexample.** Invoking layout does NOT leave previously
stored placements in place even though the caller never invoked the
separate clear operation: the stored placement vanishes. -/
theorem C6_counterexample :
    (autoLayout sessionWithPlacement (fun _ => 0)).systems
      ≠ sessionWithPlacement.systems := by
  intro hcontra
  exact List.noConfusion
    (show ([] : List PlacedSystem)
        = [⟨"power", ⟨1, 2, 3⟩⟩] from hcontra)

/-- **C6 (amended).** The layout operation implicitly clears existing
placements: it invokes the clear operation at its start, so the stored
collection after layout is exactly the freshly computed placement
sequence for the currently enabled systems, whatever was stored before;
the separate clear operation resets the stored placement collection to
empty and the displayed count to 0. -/
theorem C6_amended_layout_clears (s : DesignState) (u : ℕ → ℝ) :
    (autoLayout s u).systems
        = layoutPositions (getEnabledSystems s.checked)
            s.currentRadius s.currentHeight u ∧
    (clearSystems s).systems = [] ∧
    (clearSystems s).systemsCountDisplay = 0 := by
  refine ⟨?_, rfl, rfl⟩
  by_cases hlen : (getEnabledSystems s.checked).length = 0
  · simp [autoLayout, clearSystems, updateSystemsCount, layoutPositions, hlen]
  · simp [autoLayout, clearSystems, updateSystemsCount, layoutPositions, hlen]

end SpaceHabitatDesigner
